import Mathlib

/-!
# Verification of the log.io server's Input Registry and Message Router

A shallow embedding of `src/server/src/logger.ts` (the TCP wire parser,
message router and broadcast logic of the server) together with a model of
the Input Registry.  JavaScript values that may be `undefined` (array
destructuring past the end of the array) are modelled with `Option String`,
`none` standing for `undefined`.  The observable effects of one call —
registry mutations, socket.io emissions and log lines — are recorded as an
ordered trace of `Action`s, in the order the source performs them.
-/

namespace LogServer

/-- JavaScript string interpolation of a possibly-`undefined` value:
`undefined` is rendered as the string `"undefined"`. -/
def jsStr : Option String → String
  | some s => s
  | none => "undefined"

/-- Split a character list at every occurrence of `c`; `acc` holds the
(reversed) characters of the current segment.  Mirrors JavaScript
`String.prototype.split` with a one-character separator: every occurrence
of the separator starts a new segment, and the empty string yields the
single segment `""`. -/
def splitOnCharAux (c : Char) : List Char → List Char → List (List Char)
  | [], acc => [acc.reverse]
  | x :: xs, acc =>
      if x = c then acc.reverse :: splitOnCharAux c xs []
      else splitOnCharAux c xs (x :: acc)

/-- JavaScript `s.split(c)` for a one-character separator `c`. -/
def jsSplit (c : Char) (s : String) : List String :=
  (splitOnCharAux c s.data []).map String.mk

/-- The whitespace characters stripped by JavaScript
`String.prototype.trim` (the ASCII ones plus no-break space and BOM; the
remaining Unicode space separators never occur in the inputs considered
here). -/
def isJsWhitespace (ch : Char) : Bool :=
  ch = ' ' || ch = '\t' || ch = '\n' || ch = '\r' ||
  ch = '\x0b' || ch = '\x0c' || ch = '\u00A0' || ch = '\uFEFF'

/-- JavaScript `s.trim()`: strip leading and trailing whitespace. -/
def jsTrim (s : String) : String :=
  String.mk (((s.data.dropWhile isJsWhitespace).reverse.dropWhile
    isJsWhitespace).reverse)

/-- Modelled from the spec: the repository file `server/src/inputs.ts`
defining the Input Registry is not among the provided sources (only its
importer `server.ts` is).  Per spec §3, an Input records its `stream` and
`source` identifiers and a derived, stable `channelId` (called `inputName`
by the router), a deterministic function of the pair. -/
structure Input where
  stream : Option String
  source : Option String
  inputName : String
deriving Repr, DecidableEq

/-- Modelled from the spec: the channelId derivation of `inputs.ts` is "a
deterministic hash/join of (stream, source)" (spec §9); we model it as the
join of the two fields, with JavaScript coercion of `undefined`. -/
def getInputName (stream source : Option String) : String :=
  jsStr stream ++ "|" ++ jsStr source

/-- Modelled from the spec: the Input Registry state of `inputs.ts`,
keyed by (stream, source) pairs, listing Inputs in registration order
(spec §4.2 `list()`). -/
structure InputRegistry where
  inputs : List Input
deriving Repr, DecidableEq

/-- Does a stored Input belong to the given (stream, source) pair? -/
def pairMatches (stream source : Option String) (i : Input) : Bool :=
  i.stream == stream && i.source == source

/-- Is the (stream, source) pair currently registered? -/
def InputRegistry.containsPair (r : InputRegistry) (stream source : Option String) : Bool :=
  r.inputs.any (pairMatches stream source)

/-- Modelled from the spec §4.2: `add(stream, source) -> channelId` — if the
pair is unseen, create and store an Input with a deterministically generated
channelId and return it; if already present, return the existing channelId
unchanged (which, channelIds being a deterministic function of the pair,
is again `getInputName stream source`). -/
def InputRegistry.add (r : InputRegistry) (stream source : Option String) :
    String × InputRegistry :=
  let inputName := getInputName stream source
  if r.containsPair stream source then
    (inputName, r)
  else
    (inputName, ⟨r.inputs ++ [⟨stream, source, inputName⟩]⟩)

/-- Modelled from the spec §4.2: `remove(stream, source) -> channelId` —
delete the Input for the pair if present; return the deterministically
computed channelId whether or not the pair was registered. -/
def InputRegistry.remove (r : InputRegistry) (stream source : Option String) :
    String × InputRegistry :=
  (getInputName stream source,
   ⟨r.inputs.filter fun i => !(pairMatches stream source i)⟩)

/-- Modelled from the spec §4.2: `list()` returns all currently registered
Inputs in registration order. -/
def InputRegistry.getInputs (r : InputRegistry) : List Input :=
  r.inputs

/-- Registry well-formedness: no two stored Inputs share a (stream, source)
pair (spec §3 invariant: at most one Input per distinct pair). -/
def noDupPairs : List Input → Bool
  | [] => true
  | i :: rest =>
      !(rest.any (pairMatches i.stream i.source)) && noDupPairs rest

/-- A registry is well-formed when it holds at most one Input per pair. -/
def InputRegistry.wf (r : InputRegistry) : Bool :=
  noDupPairs r.inputs

/-- Server configuration as consumed by the router: only the debug flag is
observable in the routed code (`config.debug`). -/
structure ServerConfig where
  debug : Bool
deriving Repr, DecidableEq

/-- Payload of the per-channel message event emitted by `handleNewMessage`:
`{ inputName, msg, stream, source }`. -/
structure MsgEventPayload where
  inputName : String
  msg : String
  stream : Option String
  source : Option String
deriving Repr, DecidableEq

/-- Payload of the all-viewers events (`+ping`, `+input`, `-input`):
`{ stream, source, inputName }` — carries no message payload. -/
structure InputEventPayload where
  stream : Option String
  source : Option String
  inputName : String
deriving Repr, DecidableEq

/-- One observable effect of the router, in program order: a registry
mutation, a socket.io emission to one channel (`io.to(ch).emit`), an
emission to all connected viewers (`io.emit`), or a logger call. -/
inductive Action where
  | registryAdd (stream source : Option String)
  | registryRemove (stream source : Option String)
  | emitToChannel (channel : String) (eventName : Option String)
      (payload : MsgEventPayload)
  | emitToAll (eventName : Option String) (payload : InputEventPayload)
  | logError (text : String)
  | logDebug (text : String)
deriving Repr, DecidableEq

/-- `handleNewMessage` (server.ts lines 43–66): destructure the first three
fields as `[mtype, stream, source]`, rejoin the remaining fields with `|`
as the payload, register the pair, emit the message to the input channel,
then ping all browsers; log the raw message when debugging. -/
def handleNewMessage (config : ServerConfig) (inputs : InputRegistry)
    (msgParts : List String) : InputRegistry × List Action :=
  let first3 := msgParts.take 3
  let mtype := first3[0]?
  let stream := first3[1]?
  let source := first3[2]?
  let msg := String.intercalate "|" (msgParts.drop 3)
  let (inputName, inputs1) := inputs.add stream source
  (inputs1,
    [Action.registryAdd stream source,
     Action.emitToChannel inputName mtype
       { inputName := inputName, msg := msg, stream := stream, source := source },
     Action.emitToAll (some "+ping")
       { inputName := inputName, stream := stream, source := source }]
    ++ (if config.debug then
          [Action.logDebug (String.intercalate "|" msgParts)]
        else []))

/-- `handleRegisterInput` (server.ts lines 71–80): register the pair and
broadcast the registration to all browsers. -/
def handleRegisterInput (_config : ServerConfig) (inputs : InputRegistry)
    (msgParts : List String) : InputRegistry × List Action :=
  let first3 := msgParts.take 3
  let mtype := first3[0]?
  let stream := first3[1]?
  let source := first3[2]?
  let (inputName, inputs1) := inputs.add stream source
  (inputs1,
    [Action.registryAdd stream source,
     Action.emitToAll mtype
       { stream := stream, source := source, inputName := inputName }])

/-- `handleDeregisterInput` (server.ts lines 85–94): remove the pair and
broadcast the deregistration to all browsers. -/
def handleDeregisterInput (_config : ServerConfig) (inputs : InputRegistry)
    (msgParts : List String) : InputRegistry × List Action :=
  let first3 := msgParts.take 3
  let mtype := first3[0]?
  let stream := first3[1]?
  let source := first3[2]?
  let (inputName, inputs1) := inputs.remove stream source
  (inputs1,
    [Action.registryRemove stream source,
     Action.emitToAll mtype
       { stream := stream, source := source, inputName := inputName }])

/-- The dispatch table `messageHandlers` (server.ts lines 97–101), mapping a
message type tag to its handler. -/
def messageHandlers (tag : String) :
    Option (ServerConfig → InputRegistry → List String →
            InputRegistry × List Action) :=
  if tag == "+msg" then some handleNewMessage
  else if tag == "+input" then some handleRegisterInput
  else if tag == "-input" then some handleDeregisterInput
  else none

/-- The first field of a split segment — `msgParts[0]` in the source
(a JavaScript split always yields at least one element). -/
def tagOf (msgParts : List String) : String :=
  msgParts.headD ""

/-- One iteration of the `msgs.forEach` loop in `broadcastMessage`
(server.ts lines 119–127): split the segment on `|`, look up the handler by
the first field, run it or log an unknown-type error. -/
def dispatchOne (config : ServerConfig) (st : InputRegistry × List Action)
    (msg : String) : InputRegistry × List Action :=
  let msgParts := jsSplit '|' msg
  let tag := tagOf msgParts
  match messageHandlers tag with
  | some handler =>
      let (inputs1, acts) := handler config st.1 msgParts
      (inputs1, st.2 ++ acts)
  | none =>
      (st.1, st.2 ++ [Action.logError ("Unknown message type: " ++ tag)])

/-- The `forEach` loop of `broadcastMessage` over the parsed segments.
Each handler runs to completion before the next segment is taken (the
handler bodies contain no suspension point). -/
def dispatchBatch (config : ServerConfig) (inputs : InputRegistry)
    (msgs : List String) : InputRegistry × List Action :=
  msgs.foldl (dispatchOne config) (inputs, [])

/-- `broadcastMessage` (server.ts lines 106–128): decode the chunk, split on
the null terminator, drop the final segment, discard blank segments, then
dispatch each surviving segment. -/
def broadcastMessage (config : ServerConfig) (inputs : InputRegistry)
    (data : String) : InputRegistry × List Action :=
  let msgs := ((jsSplit '\x00' data).dropLast).filter fun m => !(jsTrim m == "")
  dispatchBatch config inputs msgs

/-- The Wire Parser as the spec words it (§4.1 steps 1–4): decode the bytes
as text, split on the null terminator, drop the final split segment
unconditionally, and discard any segment that is empty or only
whitespace. -/
def wireParseSpec (data : String) : List String :=
  ((jsSplit '\x00' data).dropLast).filter fun m => !(jsTrim m == "")

/-- A connected viewer, identified by the set of channels it has joined
(`+activate` / `-activate` in server.ts lines 178–183). -/
structure Viewer where
  channels : List String
deriving Repr, DecidableEq

/-- Does a viewer receive a given action?  A channel emission reaches
exactly the viewers that joined the channel; an all-viewers emission
reaches every viewer; registry mutations and log lines reach none. -/
def Viewer.receives (v : Viewer) : Action → Bool
  | .emitToChannel ch _ _ => v.channels.contains ch
  | .emitToAll _ _ => true
  | _ => false

/-- Is this action a per-channel message emission received by viewer `v`? -/
def isMsgDeliveryTo (v : Viewer) : Action → Bool
  | .emitToChannel ch _ _ => v.channels.contains ch
  | _ => false

/-- Is this action any per-channel message emission? -/
def Action.isEmitToChannel : Action → Bool
  | .emitToChannel _ _ _ => true
  | _ => false

/-- Is this action the activity ping (`io.emit('+ping', …)`)? -/
def Action.isPing : Action → Bool
  | .emitToAll n _ => n == some "+ping"
  | _ => false

/-- Is this action a mutation of the Input Registry? -/
def Action.isRegistryMutation : Action → Bool
  | .registryAdd _ _ => true
  | .registryRemove _ _ => true
  | _ => false

/-- Is this action a broadcast emission (to a channel or to all)? -/
def Action.isEmit : Action → Bool
  | .emitToChannel _ _ _ => true
  | .emitToAll _ _ => true
  | _ => false

/-- Every registry mutation in the trace precedes every broadcast emission:
no emission occurs at an earlier position than a mutation. -/
def mutationsBeforeEmits (l : List Action) : Prop :=
  l.Pairwise fun a b => a.isEmit = true → b.isRegistryMutation = false

/-! ### Registry lemmas -/

/-- `add` always returns the deterministically derived channelId. -/
theorem add_fst (r : InputRegistry) (s src : Option String) :
    (r.add s src).1 = getInputName s src := by
  unfold InputRegistry.add
  by_cases h : r.containsPair s src <;> simp [h]

/-- On a hit, `add` leaves the registry unchanged. -/
theorem add_snd_of_contains (r : InputRegistry) (s src : Option String)
    (h : r.containsPair s src = true) : (r.add s src).2 = r := by
  simp [InputRegistry.add, h]

/-- On a miss, `add` appends the new Input at the end. -/
theorem add_snd_of_not_contains (r : InputRegistry) (s src : Option String)
    (h : r.containsPair s src = false) :
    (r.add s src).2 = ⟨r.inputs ++ [⟨s, src, getInputName s src⟩]⟩ := by
  simp [InputRegistry.add, h]

/-- After `add`, the pair is registered. -/
theorem containsPair_add_self (r : InputRegistry) (s src : Option String) :
    ((r.add s src).2).containsPair s src = true := by
  by_cases h : r.containsPair s src = true
  · rw [add_snd_of_contains r s src h]
    exact h
  · simp only [Bool.not_eq_true] at h
    rw [add_snd_of_not_contains r s src h, InputRegistry.containsPair]
    simp [List.any_append, pairMatches]

/-- A pair occurs at most once in a list without duplicate pairs. -/
theorem countP_le_one_of_noDupPairs (l : List Input) (hl : noDupPairs l = true)
    (s src : Option String) : l.countP (pairMatches s src) ≤ 1 := by
  induction l with
  | nil => simp
  | cons i rest ih =>
      rw [noDupPairs, Bool.and_eq_true, Bool.not_eq_true'] at hl
      rw [List.countP_cons]
      by_cases hi : pairMatches s src i = true
      · have hs : i.stream = s ∧ i.source = src := by
          simpa [pairMatches, Bool.and_eq_true] using hi
        have hz : rest.countP (pairMatches s src) = 0 := by
          rw [List.countP_eq_zero]
          intro j hj hmj
          have : rest.any (pairMatches i.stream i.source) = true :=
            List.any_eq_true.mpr ⟨j, hj, by rw [hs.1, hs.2]; exact hmj⟩
          rw [hl.1] at this
          exact Bool.false_ne_true this
        simp [hi, hz]
      · simp only [Bool.not_eq_true] at hi
        simp [hi, ih hl.2]

/-- A registered pair occurs at least once. -/
theorem countP_pos_of_containsPair (r : InputRegistry) (s src : Option String)
    (h : r.containsPair s src = true) :
    0 < r.inputs.countP (pairMatches s src) := by
  rw [List.countP_pos_iff]
  simpa [InputRegistry.containsPair, List.any_eq_true] using h

/-- An unregistered pair matches no stored Input. -/
theorem not_mem_of_not_containsPair (r : InputRegistry) (s src : Option String)
    (h : r.containsPair s src = false) :
    ∀ j ∈ r.inputs, pairMatches s src j = false := by
  rw [InputRegistry.containsPair, List.any_eq_false] at h
  exact fun j hj => Bool.eq_false_iff.mpr (h j hj)

/-- Appending an Input for a fresh pair preserves pair-uniqueness. -/
theorem noDupPairs_append_singleton (l : List Input) (s src : Option String)
    (nm : String) (hl : noDupPairs l = true)
    (habs : ∀ j ∈ l, pairMatches s src j = false) :
    noDupPairs (l ++ [⟨s, src, nm⟩]) = true := by
  induction l with
  | nil => simp [noDupPairs, pairMatches]
  | cons i rest ih =>
      rw [noDupPairs, Bool.and_eq_true, Bool.not_eq_true'] at hl
      rw [List.cons_append, noDupPairs, Bool.and_eq_true, Bool.not_eq_true']
      constructor
      · rw [List.any_append, hl.1, Bool.false_or, List.any_cons, List.any_nil,
          Bool.or_false]
        refine Bool.eq_false_iff.mpr fun hp => ?_
        have hii : s = i.stream ∧ src = i.source := by
          simpa [pairMatches, Bool.and_eq_true, beq_iff_eq] using hp
        have hmatch : pairMatches s src i = true := by
          simp [pairMatches, ← hii.1, ← hii.2]
        rw [habs i (List.mem_cons_self i rest)] at hmatch
        exact Bool.false_ne_true hmatch
      · exact ih hl.2 fun j hj => habs j (List.mem_cons_of_mem i hj)

/-- `add` preserves the at-most-one-Input-per-pair invariant. -/
theorem wf_add (r : InputRegistry) (s src : Option String)
    (h : r.wf = true) : ((r.add s src).2).wf = true := by
  by_cases hc : r.containsPair s src = true
  · rw [add_snd_of_contains r s src hc]
    exact h
  · simp only [Bool.not_eq_true] at hc
    rw [add_snd_of_not_contains r s src hc]
    exact noDupPairs_append_singleton r.inputs s src _ h
      (not_mem_of_not_containsPair r s src hc)

/-- After `add` on a well-formed registry, exactly one Input exists for the
pair. -/
theorem countP_add_eq_one (r : InputRegistry) (s src : Option String)
    (h : r.wf = true) :
    ((r.add s src).2).inputs.countP (pairMatches s src) = 1 := by
  by_cases hc : r.containsPair s src = true
  · rw [add_snd_of_contains r s src hc]
    exact le_antisymm (countP_le_one_of_noDupPairs r.inputs h s src)
      (countP_pos_of_containsPair r s src hc)
  · simp only [Bool.not_eq_true] at hc
    rw [add_snd_of_not_contains r s src hc]
    have hz : r.inputs.countP (pairMatches s src) = 0 :=
      List.countP_eq_zero.mpr fun j hj hmj => by
        rw [not_mem_of_not_containsPair r s src hc j hj] at hmj
        exact Bool.false_ne_true hmj
    simp [List.countP_append, hz, List.countP_cons, pairMatches]

/-! ### Handler unfolding lemmas -/

/-- `handleNewMessage`, with the destructuring let spelled out. -/
theorem handleNewMessage_eq (config : ServerConfig) (r : InputRegistry)
    (msgParts : List String) :
    handleNewMessage config r msgParts =
      ((r.add (msgParts.take 3)[1]? (msgParts.take 3)[2]?).2,
       [Action.registryAdd (msgParts.take 3)[1]? (msgParts.take 3)[2]?,
        Action.emitToChannel (r.add (msgParts.take 3)[1]? (msgParts.take 3)[2]?).1
          (msgParts.take 3)[0]?
          { inputName := (r.add (msgParts.take 3)[1]? (msgParts.take 3)[2]?).1,
            msg := String.intercalate "|" (msgParts.drop 3),
            stream := (msgParts.take 3)[1]?, source := (msgParts.take 3)[2]? },
        Action.emitToAll (some "+ping")
          { stream := (msgParts.take 3)[1]?, source := (msgParts.take 3)[2]?,
            inputName := (r.add (msgParts.take 3)[1]? (msgParts.take 3)[2]?).1 }]
       ++ if config.debug then [Action.logDebug (String.intercalate "|" msgParts)]
          else []) := rfl

/-- `handleRegisterInput`, with the destructuring let spelled out. -/
theorem handleRegisterInput_eq (config : ServerConfig) (r : InputRegistry)
    (msgParts : List String) :
    handleRegisterInput config r msgParts =
      ((r.add (msgParts.take 3)[1]? (msgParts.take 3)[2]?).2,
       [Action.registryAdd (msgParts.take 3)[1]? (msgParts.take 3)[2]?,
        Action.emitToAll (msgParts.take 3)[0]?
          { stream := (msgParts.take 3)[1]?, source := (msgParts.take 3)[2]?,
            inputName := (r.add (msgParts.take 3)[1]? (msgParts.take 3)[2]?).1 }]) :=
  rfl

/-- `handleDeregisterInput`, with the destructuring let spelled out. -/
theorem handleDeregisterInput_eq (config : ServerConfig) (r : InputRegistry)
    (msgParts : List String) :
    handleDeregisterInput config r msgParts =
      ((r.remove (msgParts.take 3)[1]? (msgParts.take 3)[2]?).2,
       [Action.registryRemove (msgParts.take 3)[1]? (msgParts.take 3)[2]?,
        Action.emitToAll (msgParts.take 3)[0]?
          { stream := (msgParts.take 3)[1]?, source := (msgParts.take 3)[2]?,
            inputName := getInputName (msgParts.take 3)[1]? (msgParts.take 3)[2]? }]) :=
  rfl

/-! ### Dispatch lemmas -/

/-- Processing one segment only appends to the already-accumulated trace. -/
theorem dispatchOne_acc (config : ServerConfig) (r : InputRegistry)
    (acts : List Action) (m : String) :
    dispatchOne config (r, acts) m
      = ((dispatchOne config (r, []) m).1,
         acts ++ (dispatchOne config (r, []) m).2) := by
  cases hmh : messageHandlers (tagOf (jsSplit '|' m)) with
  | none => simp [dispatchOne, hmh]
  | some handler => simp [dispatchOne, hmh]

/-- The `forEach` loop accumulates traces left to right. -/
theorem foldl_dispatchOne_acc (config : ServerConfig) (msgs : List String) :
    ∀ (r : InputRegistry) (acts : List Action),
      msgs.foldl (dispatchOne config) (r, acts)
        = ((msgs.foldl (dispatchOne config) (r, [])).1,
           acts ++ (msgs.foldl (dispatchOne config) (r, [])).2) := by
  induction msgs with
  | nil => intro r acts; simp
  | cons m rest ih =>
      intro r acts
      rw [List.foldl_cons, List.foldl_cons, dispatchOne_acc]
      rw [ih (dispatchOne config (r, []) m).1 (acts ++ (dispatchOne config (r, []) m).2)]
      conv_rhs => rw [← Prod.mk.eta (p := dispatchOne config (r, []) m)]
      rw [ih (dispatchOne config (r, []) m).1 (dispatchOne config (r, []) m).2]
      simp [List.append_assoc]

/-- `dispatchBatch` on a batch head: process the head segment, then the rest
from the updated registry, concatenating the traces. -/
theorem dispatchBatch_cons (config : ServerConfig) (r : InputRegistry)
    (m : String) (msgs : List String) :
    dispatchBatch config r (m :: msgs)
      = ((dispatchBatch config (dispatchOne config (r, []) m).1 msgs).1,
         (dispatchOne config (r, []) m).2
           ++ (dispatchBatch config (dispatchOne config (r, []) m).1 msgs).2) := by
  rw [dispatchBatch, List.foldl_cons]
  conv_lhs => rw [← Prod.mk.eta (p := dispatchOne config (r, []) m)]
  rw [foldl_dispatchOne_acc]
  rfl

/-- An unrecognized tag only logs a diagnostic. -/
theorem dispatchOne_unknown (config : ServerConfig) (st : InputRegistry × List Action)
    (m : String) (h : messageHandlers (tagOf (jsSplit '|' m)) = none) :
    dispatchOne config st m
      = (st.1, st.2 ++ [Action.logError ("Unknown message type: "
          ++ tagOf (jsSplit '|' m))]) := by
  simp [dispatchOne, h]

/-- A recognized tag dispatches the split segment to its handler. -/
theorem dispatchOne_handler (config : ServerConfig) (st : InputRegistry × List Action)
    (m : String)
    (handler : ServerConfig → InputRegistry → List String →
      InputRegistry × List Action)
    (h : messageHandlers (tagOf (jsSplit '|' m)) = some handler) :
    dispatchOne config st m
      = ((handler config st.1 (jsSplit '|' m)).1,
         st.2 ++ (handler config st.1 (jsSplit '|' m)).2) := by
  simp [dispatchOne, h]

/-! ### The claims -/

/-- C1: for every raw input chunk, `broadcastMessage` dispatches exactly the
segments obtained by splitting the decoded text on the null terminator,
unconditionally dropping the final split segment and discarding blank
segments; in particular, for the chunk `"+msg|a|b|hello\0+msg|a|b|world"`
only the `hello` message is dispatched and `world` is dropped. -/
theorem broadcastMessage_dispatches_wireParse :
    (∀ (config : ServerConfig) (r : InputRegistry) (data : String),
       broadcastMessage config r data = dispatchBatch config r (wireParseSpec data))
    ∧ broadcastMessage ⟨false⟩ ⟨[]⟩ "+msg|a|b|hello\x00+msg|a|b|world"
        = (⟨[⟨some "a", some "b", "a|b"⟩]⟩,
           [Action.registryAdd (some "a") (some "b"),
            Action.emitToChannel "a|b" (some "+msg")
              ⟨"a|b", "hello", some "a", some "b"⟩,
            Action.emitToAll (some "+ping") ⟨some "a", some "b", "a|b"⟩]) :=
  ⟨fun _ _ _ => rfl, by decide⟩

/-- C2: for every `+msg` message, the single per-channel broadcast carries
as payload all fields after the third rejoined with `|`; in particular the
segment `+msg|app|host1|error: a|b|c` broadcasts exactly the payload
`error: a|b|c`, not truncated at the first `|`. -/
theorem newMessage_payload_rejoined :
    (∀ (config : ServerConfig) (r : InputRegistry) (s1 s2 : String)
       (rest : List String),
       Action.emitToChannel (r.add (some s1) (some s2)).1 (some "+msg")
           ⟨(r.add (some s1) (some s2)).1, String.intercalate "|" rest,
            some s1, some s2⟩
         ∈ (handleNewMessage config r ("+msg" :: s1 :: s2 :: rest)).2
       ∧ (handleNewMessage config r ("+msg" :: s1 :: s2 :: rest)).2.countP
           Action.isEmitToChannel = 1)
    ∧ broadcastMessage ⟨false⟩ ⟨[]⟩ "+msg|app|host1|error: a|b|c\x00"
        = (⟨[⟨some "app", some "host1", "app|host1"⟩]⟩,
           [Action.registryAdd (some "app") (some "host1"),
            Action.emitToChannel "app|host1" (some "+msg")
              ⟨"app|host1", "error: a|b|c", some "app", some "host1"⟩,
            Action.emitToAll (some "+ping")
              ⟨some "app", some "host1", "app|host1"⟩]) := by
  constructor
  · intro config r s1 s2 rest
    rw [handleNewMessage_eq]
    simp only [List.take_succ_cons, List.take_zero, List.getElem?_cons_zero,
      List.getElem?_cons_succ, List.drop_succ_cons, List.drop_zero]
    constructor
    · cases config.debug <;> simp
    · cases config.debug <;>
        simp [List.countP_cons, List.countP_append, Action.isEmitToChannel]
  · decide

/-- C4: `add` is idempotent — a second identical `add` returns the same
channelId and the same registry; on a well-formed registry the pair then
occurs exactly once in `list()`, and well-formedness is preserved. -/
theorem add_idempotent (r : InputRegistry) (s src : Option String)
    (h : r.wf = true) :
    ((r.add s src).2.add s src).1 = (r.add s src).1
    ∧ ((r.add s src).2.add s src).2 = (r.add s src).2
    ∧ ((r.add s src).2.getInputs).countP (pairMatches s src) = 1
    ∧ ((r.add s src).2).wf = true := by
  refine ⟨?_, ?_, countP_add_eq_one r s src h, wf_add r s src h⟩
  · rw [add_fst, add_fst]
  · exact add_snd_of_contains _ s src (containsPair_add_self r s src)

/-- Witness for C4 at the empty registry and the pair ("app", "host1"). -/
theorem add_idempotent_witness :
    (InputRegistry.mk []).wf = true
    ∧ (((InputRegistry.mk []).add (some "app") (some "host1")).2.add
          (some "app") (some "host1")).1
        = ((InputRegistry.mk []).add (some "app") (some "host1")).1
      ∧ (((InputRegistry.mk []).add (some "app") (some "host1")).2.add
            (some "app") (some "host1")).2
          = ((InputRegistry.mk []).add (some "app") (some "host1")).2
      ∧ (((InputRegistry.mk []).add (some "app") (some "host1")).2.getInputs).countP
          (pairMatches (some "app") (some "host1")) = 1
      ∧ (((InputRegistry.mk []).add (some "app") (some "host1")).2).wf = true :=
  ⟨by decide, add_idempotent ⟨[]⟩ (some "app") (some "host1") (by decide)⟩

/-- C5: removing an unregistered pair neither mutates the registry nor
fails, and returns the channelId computed by the same derivation as `add`;
on the empty registry, `list()` stays empty. -/
theorem remove_absent (r : InputRegistry) (s src : Option String)
    (h : r.containsPair s src = false) :
    r.remove s src = (getInputName s src, r)
    ∧ ((InputRegistry.mk []).remove (some "x") (some "y")).2.getInputs = [] := by
  constructor
  · have hf : r.inputs.filter (fun i => !(pairMatches s src i)) = r.inputs := by
      apply List.filter_eq_self.mpr
      intro i hi
      rw [not_mem_of_not_containsPair r s src h i hi]
      rfl
    unfold InputRegistry.remove
    rw [hf]
  · rfl

/-- After `remove`, the pair is no longer registered. -/
theorem containsPair_remove_self (r : InputRegistry) (s src : Option String) :
    ((r.remove s src).2).containsPair s src = false := by
  rw [InputRegistry.containsPair, List.any_eq_false]
  intro j hj
  simp only [InputRegistry.remove, List.mem_filter] at hj
  simpa using hj.2

/-- C3 counterexample: the segment `+msg` has a single field (fewer than
3), yet processing the chunk `"+msg\0"` dispatches it to the `+msg`
handler: events are emitted and the registry is mutated, so the segment is
not skipped. -/
theorem short_segment_dispatched_counterexample :
    (jsSplit '|' "+msg").length < 3
    ∧ broadcastMessage ⟨false⟩ ⟨[]⟩ "+msg\x00"
        = (⟨[⟨none, none, "undefined|undefined"⟩]⟩,
           [Action.registryAdd none none,
            Action.emitToChannel "undefined|undefined" (some "+msg")
              ⟨"undefined|undefined", "", none, none⟩,
            Action.emitToAll (some "+ping") ⟨none, none, "undefined|undefined"⟩])
    ∧ (broadcastMessage ⟨false⟩ ⟨[]⟩ "+msg\x00").2 ≠ []
    ∧ (broadcastMessage ⟨false⟩ ⟨[]⟩ "+msg\x00").1 ≠ ⟨[]⟩ := by
  decide

/-- C3 (amended): a segment whose type tag is unrecognized is skipped
without being dispatched, surfaces exactly one diagnostic, and the rest of
the batch continues from the unchanged registry; but a segment with a
recognized tag and fewer than 3 fields is still dispatched to its handler,
the missing fields being `undefined` (shown here for the 2-field segment
`+msg|onlyone`). -/
theorem malformed_segment_handling (config : ServerConfig) (r : InputRegistry)
    (m : String) (more : List String)
    (h : messageHandlers (tagOf (jsSplit '|' m)) = none) :
    dispatchBatch config r (m :: more)
      = ((dispatchBatch config r more).1,
         Action.logError ("Unknown message type: " ++ tagOf (jsSplit '|' m))
           :: (dispatchBatch config r more).2)
    ∧ broadcastMessage ⟨false⟩ ⟨[]⟩ "+msg|onlyone\x00"
        = (⟨[⟨some "onlyone", none, "onlyone|undefined"⟩]⟩,
           [Action.registryAdd (some "onlyone") none,
            Action.emitToChannel "onlyone|undefined" (some "+msg")
              ⟨"onlyone|undefined", "", some "onlyone", none⟩,
            Action.emitToAll (some "+ping")
              ⟨some "onlyone", none, "onlyone|undefined"⟩]) := by
  constructor
  · rw [dispatchBatch_cons, dispatchOne_unknown config (r, []) m h]
    simp [dispatchBatch]
  · decide

/-- Witness for the amended C3, at the unknown-tag segment `nonsense|x`
followed by an empty batch remainder. -/
theorem malformed_segment_handling_witness :
    messageHandlers (tagOf (jsSplit '|' "nonsense|x")) = none
    ∧ (dispatchBatch ⟨false⟩ ⟨[]⟩ ["nonsense|x"]
          = ((dispatchBatch ⟨false⟩ ⟨[]⟩ ([] : List String)).1,
             Action.logError ("Unknown message type: "
                 ++ tagOf (jsSplit '|' "nonsense|x"))
               :: (dispatchBatch ⟨false⟩ ⟨[]⟩ ([] : List String)).2)
       ∧ broadcastMessage ⟨false⟩ ⟨[]⟩ "+msg|onlyone\x00"
           = (⟨[⟨some "onlyone", none, "onlyone|undefined"⟩]⟩,
              [Action.registryAdd (some "onlyone") none,
               Action.emitToChannel "onlyone|undefined" (some "+msg")
                 ⟨"onlyone|undefined", "", some "onlyone", none⟩,
               Action.emitToAll (some "+ping")
                 ⟨some "onlyone", none, "onlyone|undefined"⟩])) :=
  ⟨by rfl, malformed_segment_handling ⟨false⟩ ⟨[]⟩ "nonsense|x" [] (by rfl)⟩

/-- C7: after `+input|app|host1\0` then `-input|app|host1\0`, the registry
no longer contains the pair, and the second chunk's trace is exactly one
all-viewers deregistration event (each viewer receives exactly one event)
carrying the channelId originally derived for the pair at registration
time. -/
theorem deregistration_event (config : ServerConfig) (r : InputRegistry)
    (v : Viewer) :
    ((broadcastMessage config
        (broadcastMessage config r "+input|app|host1\x00").1
        "-input|app|host1\x00").1).containsPair (some "app") (some "host1")
        = false
    ∧ (broadcastMessage config
        (broadcastMessage config r "+input|app|host1\x00").1
        "-input|app|host1\x00").2
        = [Action.registryRemove (some "app") (some "host1"),
           Action.emitToAll (some "-input")
             ⟨some "app", some "host1", getInputName (some "app") (some "host1")⟩]
    ∧ (broadcastMessage config r "+input|app|host1\x00").2
        = [Action.registryAdd (some "app") (some "host1"),
           Action.emitToAll (some "+input")
             ⟨some "app", some "host1", getInputName (some "app") (some "host1")⟩]
    ∧ ((broadcastMessage config
          (broadcastMessage config r "+input|app|host1\x00").1
          "-input|app|host1\x00").2).countP v.receives = 1 := by
  have h1 : ∀ rr : InputRegistry,
      broadcastMessage config rr "+input|app|host1\x00"
        = ((rr.add (some "app") (some "host1")).2,
           [Action.registryAdd (some "app") (some "host1"),
            Action.emitToAll (some "+input")
              ⟨some "app", some "host1",
               (rr.add (some "app") (some "host1")).1⟩]) :=
    fun _ => rfl
  have h2 : ∀ rr : InputRegistry,
      broadcastMessage config rr "-input|app|host1\x00"
        = ((rr.remove (some "app") (some "host1")).2,
           [Action.registryRemove (some "app") (some "host1"),
            Action.emitToAll (some "-input")
              ⟨some "app", some "host1",
               getInputName (some "app") (some "host1")⟩]) :=
    fun _ => rfl
  refine ⟨?_, ?_, ?_, ?_⟩
  · rw [h1 r, h2]
    exact containsPair_remove_self _ _ _
  · rw [h1 r, h2]
  · rw [h1 r, add_fst]
  · rw [h1 r, h2]
    simp [Viewer.receives, List.countP_cons]

/-- C8: a message with an unrecognized tag mutates no registry state,
broadcasts nothing, produces exactly one diagnostic log entry, and every
subsequent message of the batch is processed normally from the unchanged
registry; concretely, `bogus|a|b|c\0` followed by a valid `+msg`. -/
theorem unknown_tag_diagnostic (config : ServerConfig) (r : InputRegistry)
    (m : String) (more : List String)
    (h : messageHandlers (tagOf (jsSplit '|' m)) = none) :
    dispatchBatch config r (m :: more)
      = ((dispatchBatch config r more).1,
         Action.logError ("Unknown message type: " ++ tagOf (jsSplit '|' m))
           :: (dispatchBatch config r more).2)
    ∧ broadcastMessage ⟨false⟩ ⟨[]⟩ "bogus|a|b|c\x00+msg|app|host1|hi\x00"
        = (⟨[⟨some "app", some "host1", "app|host1"⟩]⟩,
           [Action.logError "Unknown message type: bogus",
            Action.registryAdd (some "app") (some "host1"),
            Action.emitToChannel "app|host1" (some "+msg")
              ⟨"app|host1", "hi", some "app", some "host1"⟩,
            Action.emitToAll (some "+ping")
              ⟨some "app", some "host1", "app|host1"⟩]) := by
  constructor
  · rw [dispatchBatch_cons, dispatchOne_unknown config (r, []) m h]
    simp [dispatchBatch]
  · decide

/-- Witness for C8 at the unknown-tag message `bogus|a|b|c` followed by a
valid `+msg` message. -/
theorem unknown_tag_diagnostic_witness :
    messageHandlers (tagOf (jsSplit '|' "bogus|a|b|c")) = none
    ∧ (dispatchBatch ⟨false⟩ ⟨[]⟩ ["bogus|a|b|c", "+msg|app|host1|hi"]
          = ((dispatchBatch ⟨false⟩ ⟨[]⟩ ["+msg|app|host1|hi"]).1,
             Action.logError ("Unknown message type: "
                 ++ tagOf (jsSplit '|' "bogus|a|b|c"))
               :: (dispatchBatch ⟨false⟩ ⟨[]⟩ ["+msg|app|host1|hi"]).2)
       ∧ broadcastMessage ⟨false⟩ ⟨[]⟩ "bogus|a|b|c\x00+msg|app|host1|hi\x00"
           = (⟨[⟨some "app", some "host1", "app|host1"⟩]⟩,
              [Action.logError "Unknown message type: bogus",
               Action.registryAdd (some "app") (some "host1"),
               Action.emitToChannel "app|host1" (some "+msg")
                 ⟨"app|host1", "hi", some "app", some "host1"⟩,
               Action.emitToAll (some "+ping")
                 ⟨some "app", some "host1", "app|host1"⟩])) :=
  ⟨by rfl, unknown_tag_diagnostic ⟨false⟩ ⟨[]⟩ "bogus|a|b|c"
    ["+msg|app|host1|hi"] (by rfl)⟩

/-- C6: for every `+msg` message the router registers the pair via
`Registry.add`, emits the message event exactly once to the derived channel
— so a viewer subscribed to that channelId receives it exactly once and any
other viewer receives no message event — and emits exactly one activity
ping, carrying stream, source and channelId but no message payload, to all
viewers. -/
theorem newMessage_fanout (config : ServerConfig) (r : InputRegistry)
    (stream source : String) (rest : List String) (v : Viewer) :
    (handleNewMessage config r ("+msg" :: stream :: source :: rest)).1
        = (r.add (some stream) (some source)).2
    ∧ (handleNewMessage config r ("+msg" :: stream :: source :: rest)).2.countP
        (isMsgDeliveryTo v)
        = (if v.channels.contains (getInputName (some stream) (some source))
           then 1 else 0)
    ∧ (handleNewMessage config r ("+msg" :: stream :: source :: rest)).2.countP
        Action.isPing = 1
    ∧ Action.emitToAll (some "+ping")
        ⟨some stream, some source, getInputName (some stream) (some source)⟩
        ∈ (handleNewMessage config r ("+msg" :: stream :: source :: rest)).2 := by
  rw [handleNewMessage_eq]
  refine ⟨by simp, ?_, ?_, ?_⟩
  · simp only [List.take_succ_cons, List.take_zero, List.getElem?_cons_zero,
      List.getElem?_cons_succ, add_fst]
    by_cases hm : getInputName (some stream) (some source) ∈ v.channels <;>
      cases config.debug <;>
      simp [List.countP_cons, List.countP_append, isMsgDeliveryTo, hm]
  · cases config.debug <;>
      simp [List.countP_cons, List.countP_append, Action.isPing]
  · simp only [List.take_succ_cons, List.take_zero, List.getElem?_cons_zero,
      List.getElem?_cons_succ, add_fst]
    cases config.debug <;> simp

/-- C9: within each single message's processing, the registry mutation
precedes every broadcast emission in the handler's trace, for all three
message kinds. -/
theorem mutation_before_broadcast (config : ServerConfig) (r : InputRegistry)
    (msgParts : List String) :
    mutationsBeforeEmits (handleNewMessage config r msgParts).2
    ∧ mutationsBeforeEmits (handleRegisterInput config r msgParts).2
    ∧ mutationsBeforeEmits (handleDeregisterInput config r msgParts).2 := by
  refine ⟨?_, ?_, ?_⟩
  · rw [handleNewMessage_eq]
    cases config.debug <;>
      simp [mutationsBeforeEmits, List.pairwise_append, List.pairwise_cons,
        Action.isEmit, Action.isRegistryMutation]
  · rw [handleRegisterInput_eq]
    simp [mutationsBeforeEmits, List.pairwise_cons, Action.isEmit,
      Action.isRegistryMutation]
  · rw [handleDeregisterInput_eq]
    simp [mutationsBeforeEmits, List.pairwise_cons, Action.isEmit,
      Action.isRegistryMutation]

/-- C10: a `+msg` with exactly 3 fields (no payload field at all) still
registers the pair and broadcasts a message event whose payload is the
empty string, rather than being skipped. -/
theorem newMessage_empty_payload (config : ServerConfig) (r : InputRegistry)
    (stream source : String) :
    (handleNewMessage config r ["+msg", stream, source]).1
        = (r.add (some stream) (some source)).2
    ∧ ((handleNewMessage config r ["+msg", stream, source]).1).containsPair
        (some stream) (some source) = true
    ∧ Action.emitToChannel (getInputName (some stream) (some source)) (some "+msg")
        ⟨getInputName (some stream) (some source), "", some stream, some source⟩
        ∈ (handleNewMessage config r ["+msg", stream, source]).2
    ∧ broadcastMessage ⟨false⟩ ⟨[]⟩ "+msg|app|host1\x00"
        = (⟨[⟨some "app", some "host1", "app|host1"⟩]⟩,
           [Action.registryAdd (some "app") (some "host1"),
            Action.emitToChannel "app|host1" (some "+msg")
              ⟨"app|host1", "", some "app", some "host1"⟩,
            Action.emitToAll (some "+ping")
              ⟨some "app", some "host1", "app|host1"⟩]) := by
  refine ⟨?_, ?_, ?_, by decide⟩
  · rw [handleNewMessage_eq]
    simp
  · rw [handleNewMessage_eq]
    simp only [List.take_succ_cons, List.take_zero, List.getElem?_cons_zero,
      List.getElem?_cons_succ]
    exact containsPair_add_self r (some stream) (some source)
  · rw [handleNewMessage_eq]
    simp only [List.take_succ_cons, List.take_zero, List.getElem?_cons_zero,
      List.getElem?_cons_succ, add_fst]
    cases config.debug <;> simp [String.intercalate]

/-- Witness for C5 at the empty registry and the pair ("x", "y"). -/
theorem remove_absent_witness :
    (InputRegistry.mk []).containsPair (some "x") (some "y") = false
    ∧ ((InputRegistry.mk []).remove (some "x") (some "y")
          = (getInputName (some "x") (some "y"), InputRegistry.mk [])
       ∧ ((InputRegistry.mk []).remove (some "x") (some "y")).2.getInputs = []) :=
  ⟨by decide, remove_absent ⟨[]⟩ (some "x") (some "y") (by decide)⟩

end LogServer
